import Mathlib

/-!
Verification development for the Wallet-Gen repository
(`src/components/WalletGenerator.tsx`).

The component's logic is embedded shallowly:

* `Wallet`, `ComponentState`, `Store` mirror the React state variables and
  the three-plus-one `localStorage` keys the component touches.
* The external npm libraries (`bip39`, `ed25519-hd-key`, `tweetnacl`,
  `bs58`, `ethers`, `@solana/web3.js`) are not part of this repository;
  they enter the embedding as an explicit `Crypto` parameter record, one
  field per library call the component makes.  `bip39.generateMnemonic`
  draws fresh randomness on every call, so it is modelled as a stream
  indexed by a draw counter (`rngCalls`) carried in the component state.
* JavaScript string operations (`split(" ")`, `join(" ")`, `trim()`) are
  re-implemented by structural recursion over character lists so that every
  definition evaluates inside the kernel.
* `refCrypto` is one concrete instantiation of `Crypto`, used to run the
  handlers on concrete inputs.  Its `derivePath` rejects paths whose
  segments are not decimal digits followed by a hardened marker, exactly as
  the real `ed25519-hd-key` library does, and is otherwise an injective
  stand-in for the real key derivation.
-/

namespace WalletGen

/-- A generated wallet as stored in the `wallets` state array
(`interface Wallet`, source lines 35-40). -/
structure Wallet where
  publicKey : String
  privateKey : String
  mnemonic : String
  path : String
deriving DecidableEq

/-- A toast notification emitted through `toast.success` / `toast.error`. -/
inductive Toast where
  | success (msg : String)
  | error (msg : String)
deriving DecidableEq

/-- The calls into the external npm libraries, gathered as one parameter
record.  `generateMnemonic` is indexed by the number of draws made so far,
modelling its fresh randomness per call. -/
structure Crypto where
  generateMnemonic : Nat → String
  validateMnemonic : String → Bool
  mnemonicToSeedHex : String → String
  derivePath : String → String → Option (List Nat)
  naclSecretKeyFromSeed : List Nat → List Nat
  solanaPublicKeyBase58 : List Nat → String
  bs58encode : List Nat → String
  ethersAddress : String → String

/-- The React state variables of `WalletGenerator` (source lines 42-74),
plus `rngCalls`, the count of `generateMnemonic` draws made so far (the
randomness-stream index). -/
structure ComponentState where
  mnemonicWords : List String
  pathTypes : List String
  wallets : List Wallet
  showMnemonic : Bool
  mnemonicInput : String
  visiblePrivateKeys : List Bool
  visiblePhrases : List Bool
  gridView : Bool
  rngCalls : Nat
deriving DecidableEq

/-- The `localStorage` entries the component reads or writes.  Values are
kept typed; JSON serialisation round-trips them unchanged.  `pathTypesKey`
is the key literally named `"pathTypes"` that `handleAddWallet` writes (a
list of two copies of the pathTypes list) and that nothing ever reads. -/
structure Store where
  wallets : Option (List Wallet)
  mnemonics : Option (List String)
  paths : Option (List String)
  pathTypesKey : Option (List (List String))
deriving DecidableEq

/-- The component state on mount: twelve placeholder one-space words, no
chain chosen, no wallets (source lines 44-74). -/
def initialState : ComponentState :=
  { mnemonicWords := List.replicate 12 " "
    pathTypes := []
    wallets := []
    showMnemonic := false
    mnemonicInput := ""
    visiblePrivateKeys := []
    visiblePhrases := []
    gridView := false
    rngCalls := 0 }

/-- An empty `localStorage`. -/
def initialStore : Store :=
  { wallets := none, mnemonics := none, paths := none, pathTypesKey := none }

/-! ### JavaScript string operations, kernel-evaluable -/

/-- Splits a character list at every occurrence of `sep`, keeping empty
pieces, as JavaScript `String.prototype.split` does. -/
def splitCharAux (sep : Char) (cur : List Char) : List Char → List (List Char)
  | [] => [cur.reverse]
  | c :: cs =>
      if c = sep then cur.reverse :: splitCharAux sep [] cs
      else splitCharAux sep (c :: cur) cs

/-- JavaScript `s.split(sep)` for a one-character separator. -/
def jsSplit (sep : Char) (s : String) : List String :=
  (splitCharAux sep [] s.data).map String.mk

/-- JavaScript `arr.join(" ")`. -/
def jsJoinSpace : List String → String
  | [] => ""
  | [w] => w
  | w :: ws => w ++ " " ++ jsJoinSpace ws

/-- Drops leading spaces from a character list. -/
def dropLeadingSpaces : List Char → List Char
  | [] => []
  | c :: cs => if c = ' ' then dropLeadingSpaces cs else c :: cs

/-- JavaScript `s.trim()` (whitespace modelled as the space character). -/
def jsTrim (s : String) : String :=
  String.mk ((dropLeadingSpaces (dropLeadingSpaces s.data).reverse).reverse)

/-- Concatenates a list of strings. -/
def concatAll : List String → String
  | [] => ""
  | s :: ss => s ++ concatAll ss

/-- One lowercase hexadecimal digit. -/
def hexDigitChar (n : Nat) : Char :=
  if n < 10 then Char.ofNat (48 + n) else Char.ofNat (87 + n)

/-- Two lowercase hexadecimal digits for one byte. -/
def byteToHexStr (b : Nat) : String :=
  String.mk [hexDigitChar ((b / 16) % 16), hexDigitChar (b % 16)]

/-- `Buffer.from(bytes).toString("hex")`. -/
def bytesToHex (bs : List Nat) : String :=
  concatAll (bs.map byteToHexStr)

/-- The code points of a string, as a byte-list stand-in. -/
def stringBytes (s : String) : List Nat :=
  s.data.map Char.toNat

/-- JavaScript `arr.filter((_, i) => i !== index)`, with `i` starting at
the given position.  Removes exactly the element whose position equals
`index`, when it exists. -/
def filterIdxNe (index : Nat) : Nat → List α → List α
  | _, [] => []
  | i, a :: as =>
      if i = index then filterIdxNe index (i + 1) as
      else a :: filterIdxNe index (i + 1) as

/-- JavaScript `arr.map((visible, i) => i === index ? !visible : visible)`. -/
def mapToggle (index : Nat) : Nat → List Bool → List Bool
  | _, [] => []
  | i, b :: bs => (if i = index then !b else b) :: mapToggle index (i + 1) bs

/-! ### The component's handlers -/

/-- The derivation path template string
`` m/44'/${pathType}'/0'/${accountIndex}' `` (source line 264). -/
def walletPath (pathType : String) (accountIndex : Nat) : String :=
  "m/44\x27/" ++ pathType ++ "\x27/0\x27/" ++ Nat.repr accountIndex ++ "\x27"

/-- `generateWalletFromMnemonic` (source lines 255-317).  Derives a seed
with `ed25519-hd-key`'s `derivePath` for every path type, then branches on
the path type: `"501"` builds a Solana keypair via `tweetnacl`, `"60"`
uses the derived seed bytes directly as an Ethereum private key via
`ethers.Wallet`, anything else hits the unsupported-path-type branch.  A
`none` from `derivePath` models the library throwing, landing in the
`catch` block. -/
def generateWalletFromMnemonic (c : Crypto) (pathType : String)
    (mnemonic : String) (accountIndex : Nat) : Option Wallet × List Toast :=
  let seedHex := c.mnemonicToSeedHex mnemonic
  let path := walletPath pathType accountIndex
  match c.derivePath path seedHex with
  | none => (none, [Toast.error "Failed to generate wallet. Please try again."])
  | some derivedSeed =>
      if pathType = "501" then
        let secretKey := c.naclSecretKeyFromSeed derivedSeed
        (some { publicKey := c.solanaPublicKeyBase58 secretKey
                privateKey := c.bs58encode secretKey
                mnemonic := mnemonic
                path := path }, [])
      else if pathType = "60" then
        let privateKey := bytesToHex derivedSeed
        (some { publicKey := c.ethersAddress privateKey
                privateKey := privateKey
                mnemonic := mnemonic
                path := path }, [])
      else
        (none, [Toast.error "Unsupported path type."])

/-- The shared tail of `handleGenerateWallet` after the mnemonic has been
settled (source lines 360-392): store the split words, derive a wallet at
index `wallets.length` under `pathTypes[0]`, and on success append the
wallet and visibility flags and write only the `"mnemonics"` and
`"paths"` keys to `localStorage`. -/
def generateRest (c : Crypto) (st : ComponentState) (sto : Store)
    (mnemonic : String) : ComponentState × Store × List Toast :=
  let words := jsSplit ' ' mnemonic
  let st1 := { st with mnemonicWords := words }
  match generateWalletFromMnemonic c (st.pathTypes.headD "undefined")
      mnemonic st.wallets.length with
  | (some wallet, ts) =>
      ({ st1 with
          wallets := st1.wallets ++ [wallet]
          visiblePrivateKeys := st1.visiblePrivateKeys ++ [false]
          visiblePhrases := st1.visiblePhrases ++ [false] },
       { sto with mnemonics := some words, paths := some st1.pathTypes },
       ts ++ [Toast.success "Wallet generated successfully!"])
  | (none, ts) => (st1, sto, ts)

/-- `handleGenerateWallet` (source lines 344-392).  A non-empty trimmed
input is validated (rejection returns immediately); an empty input draws a
fresh phrase from `generateMnemonic`. -/
def handleGenerateWallet (c : Crypto) (st : ComponentState) (sto : Store) :
    ComponentState × Store × List Toast :=
  let trimmed := jsTrim st.mnemonicInput
  if trimmed = "" then
    generateRest c { st with rngCalls := st.rngCalls + 1 } sto
      (c.generateMnemonic st.rngCalls)
  else if c.validateMnemonic trimmed then
    generateRest c st sto trimmed
  else
    (st, sto, [Toast.error "Invalid recovery phrase. Please try again."])

/-- Truthiness test `!mnemonicWords` of the guard in `handleAddWallet`
(source line 412): `mnemonicWords` is a JavaScript array and an array is
always truthy, so the test is constantly false. -/
def jsFalsyArray (_l : List String) : Bool := false

/-- `handleAddWallet` (source lines 411-445).  The guard
`if (!mnemonicWords)` can never fire (see `jsFalsyArray`).  On success the
new wallet and visibility flags are appended, the in-memory `pathTypes` is
left untouched, and the `"wallets"` and (misspelled) `"pathTypes"` keys
are written, the latter with `[pathTypes, pathTypes]`. -/
def handleAddWallet (c : Crypto) (st : ComponentState) (sto : Store) :
    ComponentState × Store × List Toast :=
  if jsFalsyArray st.mnemonicWords then
    (st, sto, [Toast.error "No mnemonic found. Please generate a wallet first."])
  else
    match generateWalletFromMnemonic c (st.pathTypes.headD "undefined")
        (jsJoinSpace st.mnemonicWords) st.wallets.length with
    | (some wallet, ts) =>
        let updatedWallets := st.wallets ++ [wallet]
        ({ st with
            wallets := updatedWallets
            visiblePrivateKeys := st.visiblePrivateKeys ++ [false]
            visiblePhrases := st.visiblePhrases ++ [false] },
         { sto with
            wallets := some updatedWallets
            pathTypesKey := some [st.pathTypes, st.pathTypes] },
         ts ++ [Toast.success "Wallet generated successfully!"])
    | (none, ts) => (st, sto, ts)

/-- `handleDeleteWallet` (source lines 115-137).  Filters position `index`
out of `wallets`, `pathTypes` and both visibility arrays, writes the
filtered `wallets` and `paths` back to `localStorage`, and shows a success
toast.  There is no bounds check. -/
def handleDeleteWallet (st : ComponentState) (sto : Store) (index : Nat) :
    ComponentState × Store × List Toast :=
  let updatedWallets := filterIdxNe index 0 st.wallets
  let updatedPathTypes := filterIdxNe index 0 st.pathTypes
  ({ st with
      wallets := updatedWallets
      pathTypes := updatedPathTypes
      visiblePrivateKeys := filterIdxNe index 0 st.visiblePrivateKeys
      visiblePhrases := filterIdxNe index 0 st.visiblePhrases },
   { sto with wallets := some updatedWallets, paths := some updatedPathTypes },
   [Toast.success "Wallet deleted successfully!"])

/-- `handleClearWallets` (source lines 143-160). -/
def handleClearWallets (st : ComponentState) (sto : Store) :
    ComponentState × Store × List Toast :=
  ({ st with
      wallets := []
      mnemonicWords := []
      pathTypes := []
      visiblePrivateKeys := []
      visiblePhrases := [] },
   { sto with wallets := none, mnemonics := none, paths := none },
   [Toast.success "All wallets cleared."])

/-- The chain selection buttons (source lines 478-499): `onClick` sets
`pathTypes` to the one-element list for the chosen chain. -/
def selectChain (st : ComponentState) (kind : String) :
    ComponentState × List Toast :=
  ({ st with pathTypes := [kind] },
   [Toast.success "Wallet selected. Please generate a wallet to continue."])

/-- The mount-time `useEffect` (source lines 88-106): state is restored
only when all three of the `"wallets"`, `"mnemonics"` and `"paths"` keys
are present. -/
def loadEffect (st : ComponentState) (sto : Store) : ComponentState :=
  match sto.wallets, sto.mnemonics, sto.paths with
  | some ws, some ms, some ps =>
      { st with
          mnemonicWords := ms
          wallets := ws
          pathTypes := ps
          visiblePrivateKeys := ws.map (fun _ => false)
          visiblePhrases := ws.map (fun _ => false) }
  | _, _, _ => st

/-- `togglePrivateKeyVisibility` (source lines 189-199). -/
def togglePrivateKeyVisibility (st : ComponentState) (index : Nat) :
    ComponentState :=
  { st with visiblePrivateKeys := mapToggle index 0 st.visiblePrivateKeys }

/-- `togglePhraseVisibility` (source lines 213-223). -/
def togglePhraseVisibility (st : ComponentState) (index : Nat) :
    ComponentState :=
  { st with visiblePhrases := mapToggle index 0 st.visiblePhrases }

/-! ### A concrete reference instantiation of the external libraries -/

/-- Checks one path segment: one or more decimal digits followed by the
hardened marker (code point 39), the segment shape `ed25519-hd-key`'s
path validation accepts. -/
def hardenedSegment (s : String) : Bool :=
  match s.data.reverse with
  | [] => false
  | c :: rest => c.toNat == 39 && !rest.isEmpty && rest.all Char.isDigit

/-- Checks the whole path the way `ed25519-hd-key` does: a leading `m`
followed by one or more hardened segments. -/
def isValidHardenedPath (p : String) : Bool :=
  match jsSplit '/' p with
  | m :: segs => m == "m" && !segs.isEmpty && segs.all hardenedSegment
  | [] => false

/-- A concrete stand-in for `ed25519-hd-key`'s `derivePath`: it rejects
malformed paths exactly as the library's path validation does (the library
throws, modelled as `none`) and otherwise returns an injective function of
the path and the seed. -/
def refDerivePath (path : String) (seedHex : String) : Option (List Nat) :=
  if isValidHardenedPath path then some (stringBytes (path ++ "|" ++ seedHex))
  else none

/-- The canonical all-`abandon` twelve-word recovery phrase. -/
def phraseA : String :=
  "abandon abandon abandon abandon abandon abandon abandon abandon abandon abandon abandon about"

/-- A second canonical twelve-word recovery phrase, distinct from
`phraseA`. -/
def phraseB : String :=
  "legal winner thank year wave sausage worth useful legal winner thank yellow"

/-- A concrete `Crypto` instantiation used to run the component on
concrete inputs.  The two successive `generateMnemonic` draws yield the
two distinct phrases, as two draws of real 128-bit entropy would. -/
def refCrypto : Crypto :=
  { generateMnemonic := fun n => if n % 2 = 0 then phraseA else phraseB
    validateMnemonic := fun m => m == phraseA || m == phraseB
    mnemonicToSeedHex := fun m => "5eed0f" ++ m
    derivePath := refDerivePath
    naclSecretKeyFromSeed := fun ds => 0 :: ds
    solanaPublicKeyBase58 := fun sk => "PubKey58" ++ bytesToHex sk
    bs58encode := fun sk => "Base58" ++ bytesToHex sk
    ethersAddress := fun priv => "0x" ++ priv }

/-! ### Concrete scenario states -/

/-- A dummy wallet record used as a default for list lookups. -/
def wDummy : Wallet :=
  { publicKey := "", privateKey := "", mnemonic := "", path := "" }

/-- The state right after choosing the Solana chain on a fresh mount. -/
def stSel : ComponentState := (selectChain initialState "501").1

/-! ### Helper lemmas about the indexed filter -/

lemma filterIdxNe_of_lt (k : Nat) :
    ∀ (i : Nat) (l : List α), k < i → filterIdxNe k i l = l := by
  intro i l
  induction l generalizing i with
  | nil => intro _; rfl
  | cons a as ih =>
      intro h
      unfold filterIdxNe
      rw [if_neg (by omega), ih (i + 1) (by omega)]

lemma filterIdxNe_eq_take_drop (k : Nat) :
    ∀ (i : Nat) (l : List α), i ≤ k →
      filterIdxNe k i l = l.take (k - i) ++ l.drop (k - i + 1)
  | _, [], _ => by simp [filterIdxNe]
  | i, a :: as, h => by
      unfold filterIdxNe
      by_cases hik : i = k
      · subst hik
        rw [if_pos rfl, filterIdxNe_of_lt i (i + 1) as (by omega)]
        simp
      · rw [if_neg hik, filterIdxNe_eq_take_drop k (i + 1) as (by omega)]
        obtain ⟨d, hd⟩ : ∃ d, k - i = d + 1 := ⟨k - i - 1, by omega⟩
        have h1 : k - (i + 1) = d := by omega
        rw [hd, h1]
        simp [List.take_succ_cons, List.drop_succ_cons]

lemma filterIdxNe_zero (k : Nat) (l : List α) :
    filterIdxNe k 0 l = l.take k ++ l.drop (k + 1) := by
  have := filterIdxNe_eq_take_drop k 0 l (Nat.zero_le k)
  simpa using this

lemma filterIdxNe_zero_of_le (k : Nat) (l : List α) (h : l.length ≤ k) :
    filterIdxNe k 0 l = l := by
  rw [filterIdxNe_zero, List.take_of_length_le h,
    List.drop_eq_nil_of_le (by omega), List.append_nil]

lemma filterIdxNe_zero_zero (l : List α) :
    filterIdxNe 0 0 l = l.tail := by
  rw [filterIdxNe_zero]
  simp

lemma filterIdxNe_length_le (k : Nat) :
    ∀ (i : Nat) (l : List α), (filterIdxNe k i l).length ≤ l.length := by
  intro i l
  induction l generalizing i with
  | nil => exact Nat.le_refl 0
  | cons a as ih =>
      unfold filterIdxNe
      by_cases hik : i = k
      · rw [if_pos hik]
        exact Nat.le_succ_of_le (ih (i + 1))
      · rw [if_neg hik]
        exact Nat.succ_le_succ (ih (i + 1))

/-! ### Shape lemmas for the handlers -/

/-- A successful derivation records exactly the requested path and
mnemonic in the returned wallet. -/
lemma generated_wallet_fields (c : Crypto) (pt m : String) (i : Nat)
    (w : Wallet) (ts : List Toast)
    (h : generateWalletFromMnemonic c pt m i = (some w, ts)) :
    w.path = walletPath pt i ∧ w.mnemonic = m := by
  unfold generateWalletFromMnemonic at h
  rcases hd : c.derivePath (walletPath pt i) (c.mnemonicToSeedHex m) with _ | ds
  · simp [hd] at h
  · simp only [hd] at h
    split at h
    · simp only [Prod.mk.injEq, Option.some.injEq] at h
      exact ⟨by rw [← h.1], by rw [← h.1]⟩
    · split at h
      · simp only [Prod.mk.injEq, Option.some.injEq] at h
        exact ⟨by rw [← h.1], by rw [← h.1]⟩
      · simp at h

/-- The Solana branch of `generateWalletFromMnemonic` on a successful
derivation. -/
lemma gwfm_sol (c : Crypto) (m : String) (i : Nat) (d : List Nat)
    (h : c.derivePath (walletPath "501" i) (c.mnemonicToSeedHex m) = some d) :
    generateWalletFromMnemonic c "501" m i =
      (some { publicKey := c.solanaPublicKeyBase58 (c.naclSecretKeyFromSeed d)
              privateKey := c.bs58encode (c.naclSecretKeyFromSeed d)
              mnemonic := m
              path := walletPath "501" i }, []) := by
  unfold generateWalletFromMnemonic
  simp [h]

/-- The Ethereum branch of `generateWalletFromMnemonic` on a successful
derivation: the private key is the hex encoding of the very bytes produced
by the ed25519-style `derivePath`. -/
lemma gwfm_eth (c : Crypto) (m : String) (i : Nat) (d : List Nat)
    (h : c.derivePath (walletPath "60" i) (c.mnemonicToSeedHex m) = some d) :
    generateWalletFromMnemonic c "60" m i =
      (some { publicKey := c.ethersAddress (bytesToHex d)
              privateKey := bytesToHex d
              mnemonic := m
              path := walletPath "60" i }, []) := by
  unfold generateWalletFromMnemonic
  simp [h]

/-- Any path type other than `"501"` and `"60"` produces no wallet and a
single error toast, whether or not the derivation itself succeeds. -/
lemma gwfm_unsupported (c : Crypto) (pt m : String) (i : Nat)
    (h501 : pt ≠ "501") (h60 : pt ≠ "60") :
    ∃ msg, generateWalletFromMnemonic c pt m i = (none, [Toast.error msg]) := by
  unfold generateWalletFromMnemonic
  rcases hd : c.derivePath (walletPath pt i) (c.mnemonicToSeedHex m) with _ | ds
  · exact ⟨"Failed to generate wallet. Please try again.", by simp [hd]⟩
  · exact ⟨"Unsupported path type.", by simp [hd, h501, h60]⟩

/-- `generateRest` when the derivation succeeds. -/
lemma generateRest_success (c : Crypto) (st : ComponentState) (sto : Store)
    (m : String) (w : Wallet) (ts : List Toast)
    (h : generateWalletFromMnemonic c (st.pathTypes.headD "undefined") m
        st.wallets.length = (some w, ts)) :
    generateRest c st sto m =
      ({ st with
          mnemonicWords := jsSplit ' ' m
          wallets := st.wallets ++ [w]
          visiblePrivateKeys := st.visiblePrivateKeys ++ [false]
          visiblePhrases := st.visiblePhrases ++ [false] },
       { sto with mnemonics := some (jsSplit ' ' m), paths := some st.pathTypes },
       ts ++ [Toast.success "Wallet generated successfully!"]) := by
  unfold generateRest
  simp only [h]

/-- `generateRest` when the derivation fails: only `mnemonicWords` moves,
the store is untouched. -/
lemma generateRest_failure (c : Crypto) (st : ComponentState) (sto : Store)
    (m : String) (ts : List Toast)
    (h : generateWalletFromMnemonic c (st.pathTypes.headD "undefined") m
        st.wallets.length = (none, ts)) :
    generateRest c st sto m =
      ({ st with mnemonicWords := jsSplit ' ' m }, sto, ts) := by
  unfold generateRest
  simp only [h]

/-- `handleAddWallet` when the derivation succeeds. -/
lemma handleAddWallet_success (c : Crypto) (st : ComponentState) (sto : Store)
    (w : Wallet) (ts : List Toast)
    (h : generateWalletFromMnemonic c (st.pathTypes.headD "undefined")
        (jsJoinSpace st.mnemonicWords) st.wallets.length = (some w, ts)) :
    handleAddWallet c st sto =
      ({ st with
          wallets := st.wallets ++ [w]
          visiblePrivateKeys := st.visiblePrivateKeys ++ [false]
          visiblePhrases := st.visiblePhrases ++ [false] },
       { sto with
          wallets := some (st.wallets ++ [w])
          pathTypesKey := some [st.pathTypes, st.pathTypes] },
       ts ++ [Toast.success "Wallet generated successfully!"]) := by
  unfold handleAddWallet
  simp only [jsFalsyArray, Bool.false_eq_true, if_false, h]

/-- `handleAddWallet` when the derivation fails: nothing at all changes. -/
lemma handleAddWallet_failure (c : Crypto) (st : ComponentState) (sto : Store)
    (ts : List Toast)
    (h : generateWalletFromMnemonic c (st.pathTypes.headD "undefined")
        (jsJoinSpace st.mnemonicWords) st.wallets.length = (none, ts)) :
    handleAddWallet c st sto = (st, sto, ts) := by
  unfold handleAddWallet
  simp only [jsFalsyArray, Bool.false_eq_true, if_false, h]

/-- `generateRest` never changes the chain list and only ever writes the
current chain list to the `"paths"` key. -/
lemma generateRest_paths (c : Crypto) (st : ComponentState) (sto : Store)
    (m : String) :
    (generateRest c st sto m).1.pathTypes = st.pathTypes ∧
      ((generateRest c st sto m).2.1.paths = sto.paths ∨
       (generateRest c st sto m).2.1.paths = some st.pathTypes) := by
  rcases hg : generateWalletFromMnemonic c (st.pathTypes.headD "undefined") m
      st.wallets.length with ⟨ow, ts⟩
  cases ow
  · rw [generateRest_failure c st sto m ts hg]
    exact ⟨rfl, Or.inl rfl⟩
  · rw [generateRest_success c st sto m _ ts hg]
    exact ⟨rfl, Or.inr rfl⟩

/-- A let-free unfolding of `handleGenerateWallet`, convenient for case
splits. -/
lemma handleGenerateWallet_eq (c : Crypto) (st : ComponentState)
    (sto : Store) :
    handleGenerateWallet c st sto =
      if jsTrim st.mnemonicInput = "" then
        generateRest c { st with rngCalls := st.rngCalls + 1 } sto
          (c.generateMnemonic st.rngCalls)
      else if c.validateMnemonic (jsTrim st.mnemonicInput) then
        generateRest c st sto (jsTrim st.mnemonicInput)
      else
        (st, sto, [Toast.error "Invalid recovery phrase. Please try again."]) :=
  rfl

/-- `handleGenerateWallet` never changes the chain list and only ever
writes the current chain list to the `"paths"` key. -/
lemma handleGenerateWallet_paths (c : Crypto) (st : ComponentState)
    (sto : Store) :
    (handleGenerateWallet c st sto).1.pathTypes = st.pathTypes ∧
      ((handleGenerateWallet c st sto).2.1.paths = sto.paths ∨
       (handleGenerateWallet c st sto).2.1.paths = some st.pathTypes) := by
  rw [handleGenerateWallet_eq]
  split
  · exact generateRest_paths c { st with rngCalls := st.rngCalls + 1 } sto _
  · split
    · exact generateRest_paths c st sto _
    · exact ⟨rfl, Or.inl rfl⟩

/-- `handleAddWallet` touches neither the chain list nor the `"paths"`
key. -/
lemma handleAddWallet_paths (c : Crypto) (st : ComponentState) (sto : Store) :
    (handleAddWallet c st sto).1.pathTypes = st.pathTypes ∧
      (handleAddWallet c st sto).2.1.paths = sto.paths := by
  rcases hg : generateWalletFromMnemonic c (st.pathTypes.headD "undefined")
      (jsJoinSpace st.mnemonicWords) st.wallets.length with ⟨ow, ts⟩
  cases ow
  · rw [handleAddWallet_failure c st sto ts hg]
    exact ⟨rfl, rfl⟩
  · rw [handleAddWallet_success c st sto _ ts hg]
    exact ⟨rfl, rfl⟩

/-- A let-free unfolding of `handleDeleteWallet`. -/
lemma handleDeleteWallet_eq (st : ComponentState) (sto : Store) (index : Nat) :
    handleDeleteWallet st sto index =
      ({ st with
          wallets := filterIdxNe index 0 st.wallets
          pathTypes := filterIdxNe index 0 st.pathTypes
          visiblePrivateKeys := filterIdxNe index 0 st.visiblePrivateKeys
          visiblePhrases := filterIdxNe index 0 st.visiblePhrases },
       { sto with
          wallets := some (filterIdxNe index 0 st.wallets)
          paths := some (filterIdxNe index 0 st.pathTypes) },
       [Toast.success "Wallet deleted successfully!"]) :=
  rfl

/-- When `generateRest` appends nothing, the store and every state field
except `mnemonicWords` are untouched. -/
lemma generateRest_failure_frame (c : Crypto) (st : ComponentState)
    (sto : Store) (m : String)
    (h : (generateRest c st sto m).1.wallets = st.wallets) :
    (generateRest c st sto m).2.1 = sto ∧
      (generateRest c st sto m).1.pathTypes = st.pathTypes ∧
      (generateRest c st sto m).1.visiblePrivateKeys = st.visiblePrivateKeys ∧
      (generateRest c st sto m).1.visiblePhrases = st.visiblePhrases := by
  rcases hg : generateWalletFromMnemonic c (st.pathTypes.headD "undefined") m
      st.wallets.length with ⟨ow, ts⟩
  cases ow
  · rw [generateRest_failure c st sto m ts hg]
    exact ⟨rfl, rfl, rfl, rfl⟩
  · rw [generateRest_success c st sto m _ ts hg] at h
    simp only at h
    have := congrArg List.length h
    simp [List.length_append] at this

/-- Whatever wallet `generateRest` appends was derived at the current
wallet count under the current chain. -/
lemma generateRest_new_wallet (c : Crypto) (st : ComponentState)
    (sto : Store) (m : String) (w : Wallet)
    (h : (generateRest c st sto m).1.wallets = st.wallets ++ [w]) :
    w.path = walletPath (st.pathTypes.headD "undefined") st.wallets.length ∧
      w.mnemonic = m := by
  rcases hg : generateWalletFromMnemonic c (st.pathTypes.headD "undefined") m
      st.wallets.length with ⟨ow, ts⟩
  cases ow with
  | none =>
      rw [generateRest_failure c st sto m ts hg] at h
      simp only at h
      have := congrArg List.length h
      simp [List.length_append] at this
  | some w0 =>
      rw [generateRest_success c st sto m w0 ts hg] at h
      simp only at h
      have hw : w0 = w := by
        simpa using List.append_cancel_left h
      rw [← hw]
      exact generated_wallet_fields c _ m _ w0 ts hg

/-- Whatever wallet `handleAddWallet` appends was derived at the current
wallet count under the current chain, from the joined stored words. -/
lemma handleAddWallet_new_wallet (c : Crypto) (st : ComponentState)
    (sto : Store) (w : Wallet)
    (h : (handleAddWallet c st sto).1.wallets = st.wallets ++ [w]) :
    w.path = walletPath (st.pathTypes.headD "undefined") st.wallets.length ∧
      w.mnemonic = jsJoinSpace st.mnemonicWords := by
  rcases hg : generateWalletFromMnemonic c (st.pathTypes.headD "undefined")
      (jsJoinSpace st.mnemonicWords) st.wallets.length with ⟨ow, ts⟩
  cases ow with
  | none =>
      rw [handleAddWallet_failure c st sto ts hg] at h
      simp only at h
      have := congrArg List.length h
      simp [List.length_append] at this
  | some w0 =>
      rw [handleAddWallet_success c st sto w0 ts hg] at h
      simp only at h
      have hw : w0 = w := by
        simpa using List.append_cancel_left h
      rw [← hw]
      exact generated_wallet_fields c _ _ _ w0 ts hg

/-- Running `handleGenerateWallet` and then `handleAddWallet`, threading
the store, and keeping the final component state. -/
def genThenAdd (c : Crypto) (st : ComponentState) (sto : Store) :
    ComponentState :=
  (handleAddWallet c (handleGenerateWallet c st sto).1
    (handleGenerateWallet c st sto).2.1).1

/-! ### The user-reachable states of a session -/

/-- The transitions the component wires to the UI, starting from a fresh
mount with an empty store: chain selection (offered only while no chain is
chosen and no wallets exist), editing the phrase input, the three wallet
mutators, clear, the visibility toggles, and remounting against whatever
the store currently holds (a new session). -/
inductive Reachable (c : Crypto) : ComponentState → Store → Prop
  | init : Reachable c initialState initialStore
  | select {st sto} (kind : String) : Reachable c st sto →
      st.wallets = [] → st.pathTypes = [] →
      Reachable c (selectChain st kind).1 sto
  | setInput {st sto} (s : String) : Reachable c st sto →
      Reachable c { st with mnemonicInput := s } sto
  | generate {st sto} : Reachable c st sto →
      Reachable c (handleGenerateWallet c st sto).1
        (handleGenerateWallet c st sto).2.1
  | add {st sto} : Reachable c st sto →
      Reachable c (handleAddWallet c st sto).1 (handleAddWallet c st sto).2.1
  | delete {st sto} (index : Nat) : Reachable c st sto →
      Reachable c (handleDeleteWallet st sto index).1
        (handleDeleteWallet st sto index).2.1
  | clear {st sto} : Reachable c st sto →
      Reachable c (handleClearWallets st sto).1 (handleClearWallets st sto).2.1
  | togglePriv {st sto} (index : Nat) : Reachable c st sto →
      Reachable c (togglePrivateKeyVisibility st index) sto
  | togglePhrase {st sto} (index : Nat) : Reachable c st sto →
      Reachable c (togglePhraseVisibility st index) sto
  | toggleShow {st sto} (b : Bool) : Reachable c st sto →
      Reachable c { st with showMnemonic := b } sto
  | toggleGrid {st sto} (b : Bool) : Reachable c st sto →
      Reachable c { st with gridView := b } sto
  | remount {st sto} : Reachable c st sto →
      Reachable c (loadEffect initialState sto) sto

/-- In every reachable state the chain list holds at most one entry, and
so does any chain list persisted under the `"paths"` key. -/
lemma reachable_pathTypes_bound {c : Crypto} {st : ComponentState}
    {sto : Store} (h : Reachable c st sto) :
    st.pathTypes.length ≤ 1 ∧ (∀ ps, sto.paths = some ps → ps.length ≤ 1) := by
  induction h with
  | init =>
      refine ⟨by simp [initialState], ?_⟩
      intro ps hps
      simp [initialStore] at hps
  | select kind _ _ _ ih => exact ⟨by simp [selectChain], ih.2⟩
  | setInput s _ ih => exact ih
  | generate _ ih =>
      obtain ⟨h1, h2⟩ := handleGenerateWallet_paths _ _ _
      refine ⟨by rw [h1]; exact ih.1, ?_⟩
      intro ps hps
      rcases h2 with h2 | h2
      · rw [h2] at hps
        exact ih.2 ps hps
      · rw [h2] at hps
        cases hps
        exact ih.1
  | add _ ih =>
      obtain ⟨h1, h2⟩ := handleAddWallet_paths _ _ _
      refine ⟨by rw [h1]; exact ih.1, ?_⟩
      intro ps hps
      rw [h2] at hps
      exact ih.2 ps hps
  | delete index _ ih =>
      refine ⟨?_, ?_⟩
      · exact Nat.le_trans (filterIdxNe_length_le index 0 _) ih.1
      · intro ps hps
        unfold handleDeleteWallet at hps
        simp only [Option.some.injEq] at hps
        rw [← hps]
        exact Nat.le_trans (filterIdxNe_length_le index 0 _) ih.1
  | clear _ ih =>
      refine ⟨by simp [handleClearWallets], ?_⟩
      intro ps hps
      simp [handleClearWallets] at hps
  | togglePriv index _ ih => exact ih
  | togglePhrase index _ ih => exact ih
  | toggleShow b _ ih => exact ih
  | toggleGrid b _ ih => exact ih
  | remount _ ih =>
      refine ⟨?_, ih.2⟩
      unfold loadEffect
      split
      · next ws ms ps heq1 heq2 heq3 => exact ih.2 ps heq3
      · simp [initialState]

/-! ### Concrete runs with the reference crypto -/

/-- Step 1 of the main scenario: generate a wallet right after selecting
the Solana chain (draws `phraseA`). -/
def c3s1 : ComponentState × Store × List Toast :=
  handleGenerateWallet refCrypto stSel initialStore

/-- Step 2: Add Wallet (index 1, same phrase). -/
def c3s2 : ComponentState × Store × List Toast :=
  handleAddWallet refCrypto c3s1.1 c3s1.2.1

/-- Step 3: Add Wallet again (index 2, same phrase). -/
def c3s3 : ComponentState × Store × List Toast :=
  handleAddWallet refCrypto c3s2.1 c3s2.2.1

/-- Step 4: delete the wallet at position 2. -/
def c3s4 : ComponentState × Store × List Toast :=
  handleDeleteWallet c3s3.1 c3s3.2.1 2

/-- Step 5: Add Wallet once more after the deletion. -/
def c3s5 : ComponentState × Store × List Toast :=
  handleAddWallet refCrypto c3s4.1 c3s4.2.1

/-- A second `generate` right after the first one (draws `phraseB`). -/
def c7g2 : ComponentState × Store × List Toast :=
  handleGenerateWallet refCrypto c3s1.1 c3s1.2.1

/-- Deleting the wallet at position 0 right after the first generate. -/
def c10s2 : ComponentState × Store × List Toast :=
  handleDeleteWallet c3s1.1 c3s1.2.1 0

/-- Add Wallet after the position-0 deletion emptied the chain list. -/
def c10add : ComponentState × Store × List Toast :=
  handleAddWallet refCrypto c10s2.1 c10s2.2.1

/-- The seed-hex string the reference crypto produces for `phraseA`. -/
def c1SeedHex : String := refCrypto.mnemonicToSeedHex phraseA

/-- The sub-seed the reference ed25519-style derivation produces for the
Ethereum path at account index 0 over `phraseA`. -/
def c1Derived : List Nat :=
  stringBytes (walletPath "60" 0 ++ "|" ++ c1SeedHex)

/-! ### Claim theorems -/

set_option maxRecDepth 100000 in
/-- C1: for the Secp256k1 chain (path type "60") the code does NOT run a
separate secp256k1 BIP-32 derivation; evaluated at the canonical
all-abandon phrase and account index 0, the wallet's private key is the
hex encoding of exactly the bytes returned by the ed25519-style
`derivePath` (the same derivation the "501" branch consumes), and the
address is computed from that key. -/
theorem c1_eth_key_comes_from_ed25519_derivation :
    refCrypto.derivePath (walletPath "60" 0) c1SeedHex = some c1Derived ∧
    (generateWalletFromMnemonic refCrypto "60" phraseA 0).1 =
      some { publicKey := refCrypto.ethersAddress (bytesToHex c1Derived)
             privateKey := bytesToHex c1Derived
             mnemonic := phraseA
             path := walletPath "60" 0 } := by
  decide

set_option maxRecDepth 100000 in
/-- C2: after a fresh session runs select-chain and one successful
`generate`, the store holds no `"wallets"` entry at all (generate writes
only `"mnemonics"` and `"paths"`), so a reload restores nothing: the
in-memory wallet list of length 1 is not reproduced by load. -/
theorem c2_generate_saves_no_wallets_key :
    c3s1.1.wallets.length = 1 ∧
    c3s1.2.1.wallets = none ∧
    (loadEffect initialState c3s1.2.1).wallets = [] := by
  decide

set_option maxRecDepth 100000 in
/-- C3 (counterexample): in the run select, generate, add, add,
delete position 2, add, the wallet created after the deletion is
byte-identical to the previously deleted wallet — its derivation path
carries account index 2, an index that had already been assigned, so the
new index is not strictly greater than every index ever assigned. -/
theorem c3_index_reuse_after_delete :
    c3s3.1.wallets.length = 3 ∧
    c3s4.1.wallets.length = 2 ∧
    c3s5.1.wallets.length = 3 ∧
    c3s5.1.wallets.getLast? = c3s3.1.wallets.getLast? ∧
    (c3s5.1.wallets.getLast?.map Wallet.path) =
      some (walletPath "501" 2) := by
  decide

set_option maxRecDepth 100000 in
/-- C4: with a chain selected but no generate ever run (the stored words
are still the twelve one-space placeholders), Add Wallet does NOT fail
with a no-mnemonic error: the always-truthy array guard lets it through,
and it appends a wallet derived from the joined placeholder spaces,
reporting success. -/
theorem c4_add_before_generate_appends_junk_wallet :
    (handleAddWallet refCrypto stSel initialStore).1.wallets.length = 1 ∧
    (handleAddWallet refCrypto stSel initialStore).2.2 =
      [Toast.success "Wallet generated successfully!"] ∧
    ((handleAddWallet refCrypto stSel initialStore).1.wallets.headD
        wDummy).mnemonic = jsJoinSpace (List.replicate 12 " ") := by
  decide

set_option maxRecDepth 100000 in
/-- C5 (counterexample): removing at index 1 from a registry of length 1
does not fail with any error — it emits the success toast — even though
the index equals the registry length.  The wallet list is unchanged. -/
theorem c5_remove_at_length_reports_success :
    c3s1.1.wallets.length = 1 ∧
    (handleDeleteWallet c3s1.1 c3s1.2.1 1).2.2 =
      [Toast.success "Wallet deleted successfully!"] ∧
    (handleDeleteWallet c3s1.1 c3s1.2.1 1).1.wallets = c3s1.1.wallets := by
  decide

set_option maxRecDepth 100000 in
/-- C6 (counterexample): invoking generate with no chain selected fails
(no wallet is appended, nothing is saved), yet the stored phrase words
are mutated before the failure is detected — the freshly drawn phrase
overwrites the previous `mnemonicWords`. -/
theorem c6_failed_generate_mutates_phrase_words :
    (handleGenerateWallet refCrypto initialState initialStore).1.wallets =
      initialState.wallets ∧
    (handleGenerateWallet refCrypto initialState initialStore).2.1 =
      initialStore ∧
    (handleGenerateWallet refCrypto initialState initialStore).1.mnemonicWords ≠
      initialState.mnemonicWords := by
  decide

set_option maxRecDepth 100000 in
/-- C7 (counterexample): after selecting the Ed25519 chain, calling
generate twice with an empty input draws a fresh phrase on each call, so
the two wallets carry different mnemonics (here `phraseA` and `phraseB`),
refuting the shared-mnemonic claim; the indices are still 0 and 1. -/
theorem c7_generate_twice_distinct_mnemonics :
    c7g2.1.wallets.length = 2 ∧
    ((c7g2.1.wallets.get? 0).map Wallet.mnemonic) = some phraseA ∧
    ((c7g2.1.wallets.get? 1).map Wallet.mnemonic) = some phraseB ∧
    ((c7g2.1.wallets.get? 0).map Wallet.path) = some (walletPath "501" 0) ∧
    ((c7g2.1.wallets.get? 1).map Wallet.path) = some (walletPath "501" 1) ∧
    phraseA ≠ phraseB := by
  decide

set_option maxRecDepth 100000 in
/-- C10 (counterexample): deleting the wallet at position 0 also deletes
the single chain-list entry; the next Add Wallet then fails in the catch
branch (`derivePath` rejects the malformed `m/44'/undefined'/...` path),
not in the unsupported-path-type branch, and appends nothing. -/
theorem c10_add_after_delete_zero_takes_catch_branch :
    c3s1.1.pathTypes = ["501"] ∧
    c10s2.1.pathTypes = [] ∧
    c10add.2.2 = [Toast.error "Failed to generate wallet. Please try again."] ∧
    c10add.2.2 ≠ [Toast.error "Unsupported path type."] ∧
    c10add.1.wallets = c10s2.1.wallets := by
  decide

/-- C3 (amended): each created wallet's account index equals the wallet
count at creation time — for both generate and Add Wallet — so after a
deletion shrinks the list, the next created wallet reuses the highest
freed index rather than receiving a strictly larger one. -/
theorem c3_account_index_equals_wallet_count (c : Crypto)
    (st : ComponentState) (sto : Store) (w : Wallet) :
    ((handleAddWallet c st sto).1.wallets = st.wallets ++ [w] →
       w.path =
         walletPath (st.pathTypes.headD "undefined") st.wallets.length) ∧
    ((handleGenerateWallet c st sto).1.wallets = st.wallets ++ [w] →
       w.path =
         walletPath (st.pathTypes.headD "undefined") st.wallets.length) := by
  constructor
  · intro h
    exact (handleAddWallet_new_wallet c st sto w h).1
  · intro h
    rw [handleGenerateWallet_eq] at h
    split at h
    · exact (generateRest_new_wallet c _ sto _ w h).1
    · split at h
      · exact (generateRest_new_wallet c st sto _ w h).1
      · exfalso
        simp only at h
        have := congrArg List.length h
        simp [List.length_append] at this

/-- The wallet Add Wallet appends in the chain-selected, no-generate
state. -/
def addedAtSel : Wallet :=
  (handleAddWallet refCrypto stSel initialStore).1.wallets.headD wDummy

set_option maxRecDepth 100000 in
/-- C3 witness: at the chain-selected fresh state, Add Wallet appends a
wallet whose path carries account index 0, the current wallet count. -/
theorem c3_account_index_equals_wallet_count_witness :
    (handleAddWallet refCrypto stSel initialStore).1.wallets =
      stSel.wallets ++ [addedAtSel] ∧
    addedAtSel.path =
      walletPath (stSel.pathTypes.headD "undefined") stSel.wallets.length :=
  ⟨by decide,
   (c3_account_index_equals_wallet_count refCrypto stSel initialStore
      addedAtSel).1 (by decide)⟩

/-- C5 (amended): removing at an index greater than or equal to the
registry length raises no error: the success toast is shown, the wallet
list is unchanged (and is still written to the store), and the only other
effect is that the `pathTypes` entry at that index — when one exists — is
filtered out as well. -/
theorem c5_remove_out_of_range_silent_noop (st : ComponentState)
    (sto : Store) (k : Nat) (h : st.wallets.length ≤ k) :
    (handleDeleteWallet st sto k).1.wallets = st.wallets ∧
    (handleDeleteWallet st sto k).2.1.wallets = some st.wallets ∧
    (handleDeleteWallet st sto k).2.2 =
      [Toast.success "Wallet deleted successfully!"] ∧
    (handleDeleteWallet st sto k).1.pathTypes =
      filterIdxNe k 0 st.pathTypes := by
  rw [handleDeleteWallet_eq]
  simp only [filterIdxNe_zero_of_le k st.wallets h]
  exact ⟨trivial, trivial, trivial, trivial⟩

set_option maxRecDepth 100000 in
/-- C5 witness: removing at index 1 from the one-wallet state leaves the
wallet list unchanged. -/
theorem c5_remove_out_of_range_silent_noop_witness :
    c3s1.1.wallets.length ≤ 1 ∧
    (handleDeleteWallet c3s1.1 c3s1.2.1 1).1.wallets = c3s1.1.wallets :=
  ⟨by decide,
   (c5_remove_out_of_range_silent_noop c3s1.1 c3s1.2.1 1 (by decide)).1⟩

/-- C6 (amended): when generate appends no wallet it saves nothing and
leaves the wallet list, chain list and visibility arrays unchanged —
though it may still have overwritten the stored phrase words — and when
Add Wallet appends no wallet it changes nothing at all. -/
theorem c6_failure_no_save_core_state_preserved (c : Crypto)
    (st : ComponentState) (sto : Store) :
    ((handleGenerateWallet c st sto).1.wallets = st.wallets →
       (handleGenerateWallet c st sto).2.1 = sto ∧
       (handleGenerateWallet c st sto).1.pathTypes = st.pathTypes ∧
       (handleGenerateWallet c st sto).1.visiblePrivateKeys =
         st.visiblePrivateKeys ∧
       (handleGenerateWallet c st sto).1.visiblePhrases =
         st.visiblePhrases) ∧
    ((handleAddWallet c st sto).1.wallets = st.wallets →
       (handleAddWallet c st sto).1 = st ∧
       (handleAddWallet c st sto).2.1 = sto) := by
  constructor
  · rw [handleGenerateWallet_eq]
    split
    · intro h
      exact generateRest_failure_frame c _ sto _ h
    · split
      · intro h
        exact generateRest_failure_frame c st sto _ h
      · intro _
        exact ⟨rfl, rfl, rfl, rfl⟩
  · intro h
    rcases hg : generateWalletFromMnemonic c (st.pathTypes.headD "undefined")
        (jsJoinSpace st.mnemonicWords) st.wallets.length with ⟨ow, ts⟩
    cases ow
    · rw [handleAddWallet_failure c st sto ts hg]
      exact ⟨rfl, rfl⟩
    · rw [handleAddWallet_success c st sto _ ts hg] at h
      simp only at h
      have := congrArg List.length h
      simp [List.length_append] at this

set_option maxRecDepth 100000 in
/-- C6 witness: the no-chain generate failure appends nothing and saves
nothing. -/
theorem c6_failure_no_save_core_state_preserved_witness :
    (handleGenerateWallet refCrypto initialState initialStore).1.wallets =
      initialState.wallets ∧
    (handleGenerateWallet refCrypto initialState initialStore).2.1 =
      initialStore :=
  ⟨by decide,
   ((c6_failure_no_save_core_state_preserved refCrypto initialState
      initialStore).1 (by decide)).1⟩

/-- The component state after one successful generate over chain 501 with
drawn phrase `P` and resulting wallet `w`, starting from the fresh
chain-selected state. -/
def stAfterGen (P : String) (w : Wallet) : ComponentState :=
  ⟨jsSplit ' ' P, ["501"], [w], false, "", [false], [false], false, 1⟩

/-- The store after that same generate. -/
def stoAfterGen (P : String) : Store :=
  ⟨none, some (jsSplit ' ' P), some ["501"], none⟩

/-- The Solana-branch wallet produced from sub-seed `d` at index `i` for
phrase `P`. -/
def solWallet (c : Crypto) (P : String) (d : List Nat) (i : Nat) : Wallet :=
  { publicKey := c.solanaPublicKeyBase58 (c.naclSecretKeyFromSeed d)
    privateKey := c.bs58encode (c.naclSecretKeyFromSeed d)
    mnemonic := P
    path := walletPath "501" i }

/-- C7 (amended): after selecting the Ed25519 chain in a fresh session,
one generate with empty input followed by one Add Wallet produces two
wallets sharing the drawn phrase as mnemonic, with account indices 0 and
1, and — whenever the derivation separates the two paths — different
public keys.  (Calling generate twice instead draws two independent
phrases, as the counterexample shows.) -/
theorem c7_generate_then_add_shares_mnemonic (c : Crypto) (d0 d1 : List Nat)
    (hjoin : jsJoinSpace (jsSplit ' ' (c.generateMnemonic 0)) =
      c.generateMnemonic 0)
    (hd0 : c.derivePath (walletPath "501" 0)
      (c.mnemonicToSeedHex (c.generateMnemonic 0)) = some d0)
    (hd1 : c.derivePath (walletPath "501" 1)
      (c.mnemonicToSeedHex (c.generateMnemonic 0)) = some d1)
    (hpk : c.solanaPublicKeyBase58 (c.naclSecretKeyFromSeed d0) ≠
      c.solanaPublicKeyBase58 (c.naclSecretKeyFromSeed d1)) :
    ∃ w0 w1 : Wallet,
      (genThenAdd c stSel initialStore).wallets = [w0, w1] ∧
      w0.mnemonic = c.generateMnemonic 0 ∧
      w1.mnemonic = c.generateMnemonic 0 ∧
      w0.path = walletPath "501" 0 ∧
      w1.path = walletPath "501" 1 ∧
      w0.publicKey ≠ w1.publicKey := by
  have hsol0 : generateWalletFromMnemonic c "501" (c.generateMnemonic 0) 0 =
      (some (solWallet c (c.generateMnemonic 0) d0 0), []) :=
    gwfm_sol c (c.generateMnemonic 0) 0 d0 hd0
  have hsol1 : generateWalletFromMnemonic c "501"
      (jsJoinSpace (jsSplit ' ' (c.generateMnemonic 0))) 1 =
      (some (solWallet c (c.generateMnemonic 0) d1 1), []) := by
    rw [hjoin]
    exact gwfm_sol c (c.generateMnemonic 0) 1 d1 hd1
  refine ⟨solWallet c (c.generateMnemonic 0) d0 0,
          solWallet c (c.generateMnemonic 0) d1 1,
          ?_, rfl, rfl, rfl, rfl, hpk⟩
  show (handleAddWallet c
      (generateRest c { stSel with rngCalls := 1 } initialStore
        (c.generateMnemonic 0)).1
      (generateRest c { stSel with rngCalls := 1 } initialStore
        (c.generateMnemonic 0)).2.1).1.wallets =
    [solWallet c (c.generateMnemonic 0) d0 0,
     solWallet c (c.generateMnemonic 0) d1 1]
  rw [generateRest_success c { stSel with rngCalls := 1 } initialStore
    (c.generateMnemonic 0) (solWallet c (c.generateMnemonic 0) d0 0) []
    hsol0]
  show (handleAddWallet c
      (stAfterGen (c.generateMnemonic 0)
        (solWallet c (c.generateMnemonic 0) d0 0))
      (stoAfterGen (c.generateMnemonic 0))).1.wallets =
    [solWallet c (c.generateMnemonic 0) d0 0,
     solWallet c (c.generateMnemonic 0) d1 1]
  rw [handleAddWallet_success c
    (stAfterGen (c.generateMnemonic 0)
      (solWallet c (c.generateMnemonic 0) d0 0))
    (stoAfterGen (c.generateMnemonic 0))
    (solWallet c (c.generateMnemonic 0) d1 1) [] hsol1]
  rfl

/-- The reference sub-seed for chain 501, account 0, over `phraseA`. -/
def c7d0 : List Nat :=
  stringBytes (walletPath "501" 0 ++ "|" ++ refCrypto.mnemonicToSeedHex phraseA)

/-- The reference sub-seed for chain 501, account 1, over `phraseA`. -/
def c7d1 : List Nat :=
  stringBytes (walletPath "501" 1 ++ "|" ++ refCrypto.mnemonicToSeedHex phraseA)

set_option maxRecDepth 100000 in
/-- C7 witness: the generate-then-add run with the reference crypto
produces the two same-mnemonic wallets at indices 0 and 1. -/
theorem c7_generate_then_add_shares_mnemonic_witness :
    (jsJoinSpace (jsSplit ' ' (refCrypto.generateMnemonic 0)) =
      refCrypto.generateMnemonic 0) ∧
    ∃ w0 w1 : Wallet,
      (genThenAdd refCrypto stSel initialStore).wallets = [w0, w1] ∧
      w0.mnemonic = refCrypto.generateMnemonic 0 ∧
      w1.mnemonic = refCrypto.generateMnemonic 0 ∧
      w0.path = walletPath "501" 0 ∧
      w1.path = walletPath "501" 1 ∧
      w0.publicKey ≠ w1.publicKey :=
  ⟨by decide,
   c7_generate_then_add_shares_mnemonic refCrypto c7d0 c7d1 (by decide)
     (by decide) (by decide) (by decide)⟩

/-- C8: wallet derivation is a pure function of the path type, phrase and
account index — two calls with equal inputs return byte-identical
results, with no other state feeding the computation. -/
theorem c8_derivation_deterministic (c : Crypto) (pt1 pt2 m1 m2 : String)
    (i1 i2 : Nat) (hp : pt1 = pt2) (hm : m1 = m2) (hi : i1 = i2) :
    generateWalletFromMnemonic c pt1 m1 i1 =
      generateWalletFromMnemonic c pt2 m2 i2 := by
  rw [hp, hm, hi]

set_option maxRecDepth 100000 in
/-- C8 witness: determinism at a concrete input. -/
theorem c8_derivation_deterministic_witness :
    ("501" : String) = "501" ∧ phraseA = phraseA ∧ (0 : Nat) = 0 ∧
    generateWalletFromMnemonic refCrypto "501" phraseA 0 =
      generateWalletFromMnemonic refCrypto "501" phraseA 0 :=
  ⟨rfl, rfl, rfl,
   c8_derivation_deterministic refCrypto "501" "501" phraseA phraseA 0 0
     rfl rfl rfl⟩

/-- C9: removing the wallet at a valid position `k` keeps every remaining
wallet record — its keys, mnemonic and derivation path — exactly as it
was: the resulting list is the original with only position `k` cut out,
and its length drops by exactly one. -/
theorem c9_remove_preserves_remaining_wallets (st : ComponentState)
    (sto : Store) (k : Nat) (h : k < st.wallets.length) :
    (handleDeleteWallet st sto k).1.wallets =
      st.wallets.take k ++ st.wallets.drop (k + 1) ∧
    (handleDeleteWallet st sto k).1.wallets.length + 1 =
      st.wallets.length := by
  rw [handleDeleteWallet_eq]
  refine ⟨filterIdxNe_zero k st.wallets, ?_⟩
  show (filterIdxNe k 0 st.wallets).length + 1 = st.wallets.length
  rw [filterIdxNe_zero, List.length_append, List.length_take,
    List.length_drop]
  omega

set_option maxRecDepth 100000 in
/-- C9 witness: deleting position 0 of the one-wallet state leaves the
take/drop remainder. -/
theorem c9_remove_preserves_remaining_wallets_witness :
    0 < c3s1.1.wallets.length ∧
    (handleDeleteWallet c3s1.1 c3s1.2.1 0).1.wallets =
      c3s1.1.wallets.take 0 ++ c3s1.1.wallets.drop 1 :=
  ⟨by decide,
   (c9_remove_preserves_remaining_wallets c3s1.1 c3s1.2.1 0 (by decide)).1⟩

/-- C10 (amended): the chain list never holds more than one entry in any
reachable state; remove filters the chain list at the removed index, so
removing position 0 empties it; and with an empty chain list every Add
Wallet leaves state and store untouched and emits a single error toast
(the derivation-failure toast when the derivation rejects the malformed
path, the unsupported-path-type toast when it accepts it). -/
theorem c10_chain_list_bound_and_add_on_empty (c : Crypto) :
    (∀ st sto, Reachable c st sto → st.pathTypes.length ≤ 1) ∧
    (∀ st sto index, (handleDeleteWallet st sto index).1.pathTypes =
        filterIdxNe index 0 st.pathTypes) ∧
    (∀ st sto, (handleDeleteWallet st sto 0).1.pathTypes =
        st.pathTypes.tail) ∧
    (∀ st sto, st.pathTypes = [] →
        (handleAddWallet c st sto).1 = st ∧
        (handleAddWallet c st sto).2.1 = sto ∧
        ∃ msg, (handleAddWallet c st sto).2.2 = [Toast.error msg]) := by
  refine ⟨?_, ?_, ?_, ?_⟩
  · intro st sto h
    exact (reachable_pathTypes_bound h).1
  · intro st sto index
    rw [handleDeleteWallet_eq]
  · intro st sto
    rw [handleDeleteWallet_eq]
    exact filterIdxNe_zero_zero st.pathTypes
  · intro st sto h
    obtain ⟨msg, hmsg⟩ := gwfm_unsupported c "undefined"
      (jsJoinSpace st.mnemonicWords) st.wallets.length
      (by decide) (by decide)
    have hg : generateWalletFromMnemonic c (st.pathTypes.headD "undefined")
        (jsJoinSpace st.mnemonicWords) st.wallets.length =
        (none, [Toast.error msg]) := by
      rw [h]
      exact hmsg
    rw [handleAddWallet_failure c st sto _ hg]
    exact ⟨rfl, rfl, msg, rfl⟩

/-- C10 witness: the bound holds at the chain-selected reachable state,
and deleting position 0 drops the single chain entry. -/
theorem c10_chain_list_bound_and_add_on_empty_witness :
    stSel.pathTypes.length ≤ 1 ∧
    (handleDeleteWallet stSel initialStore 0).1.pathTypes =
      stSel.pathTypes.tail :=
  ⟨(c10_chain_list_bound_and_add_on_empty refCrypto).1 stSel initialStore
      (Reachable.select "501" Reachable.init rfl rfl),
   (c10_chain_list_bound_and_add_on_empty refCrypto).2.2.1 stSel
      initialStore⟩

end WalletGen
